import Mathlib

/-!
Shallow embedding of `src/SecurePaste/securepaste_anonymizer.py`.

The repository's own code (request handling, recognizer construction,
operator tables, report assembly, pattern validation) is embedded as
executable Lean definitions that mirror the Python line by line.  External
collaborators — the Presidio analyzer/anonymizer engines, Python's `json`
and `re` modules — are modelled as oracle functions packaged in an `Env`
record; a definition whose doc comment starts `Modelled from the spec:`
follows the specification's description of such an external step.

Python floats are modelled as rationals: the program only stores, copies
and compares decimal score literals, so rational arithmetic agrees with the
float semantics on every value involved.  Python dicts are modelled as
insertion-ordered association lists with overwrite-on-repeated-key.
-/

namespace SecurePaste

/-- Presidio `Pattern`: a named regex with a confidence score
(used at `securepaste_anonymizer.py` lines 27-64 and 128-132). -/
structure Pattern where
  name : String
  regex : String
  score : Rat
deriving Repr, DecidableEq

/-- Presidio `PatternRecognizer` as configured by this repository:
a supported entity label, a list of regex patterns, context words and a
language (`securepaste_anonymizer.py` lines 71-77 and 88-93). -/
structure PatternRecognizer where
  supported_entity : String
  patterns : List Pattern
  context : List String
  supported_language : String
deriving Repr, DecidableEq

/-- `CustomPatternRecognizer` (lines 79-94): a `PatternRecognizer`
carrying the descriptor's name. -/
structure CustomPatternRecognizer extends PatternRecognizer where
  name : String
deriving Repr, DecidableEq

/-- The six built-in password sub-patterns (lines 27-64), regex source
embedded verbatim (apostrophes, quotes and braces written as hex escapes). -/
def PASSWORD_PATTERNS : List Pattern :=
  [{ name := "password_colon_pattern"
     regex := "(?i)(?:password|pwd|pass)\\s*:\\s*([^\\s\\\x27\\\x22]\x7b6,\x7d)"
     score := 0.8 },
   { name := "password_equals_pattern"
     regex := "(?i)(?:password|pwd|pass)\\s*=\\s*([^\\s\\\x27\\\x22]\x7b6,\x7d)"
     score := 0.8 },
   { name := "password_is_pattern"
     regex := "(?i)(?:password|pwd|pass)\\s+is\\s+([^\\s\\\x27\\\x22]\x7b6,\x7d)"
     score := 0.7 },
   { name := "password_quoted_double"
     regex := "(?i)(?:password|pwd|pass)\\s*[:=]\\s*\\\x22([^\\\x22]\x7b6,\x7d)\\\x22"
     score := 0.9 },
   { name := "password_quoted_single"
     regex := "(?i)(?:password|pwd|pass)\\s*[:=]\\s*\x27([^\x27]\x7b6,\x7d)\x27"
     score := 0.9 },
   { name := "login_credentials_pattern"
     regex := "(?i)(?:username|user|login)\\s*[:=]\\s*\\S+\\s+(?:password|pwd|pass)\\s*[:=]\\s*([^\\s\\\x27\\\x22]\x7b6,\x7d)"
     score := 0.85 }]

/-- Context words of the built-in password recognizer (lines 66-69). -/
def PASSWORD_CONTEXT : List String :=
  ["password", "pwd", "pass", "credential", "auth", "login",
   "signin", "authentication", "secret", "key"]

/-- `PasswordPatternRecognizer.__init__` (lines 71-77). -/
def passwordPatternRecognizer : PatternRecognizer :=
  { supported_entity := "PASSWORD"
    patterns := PASSWORD_PATTERNS
    context := PASSWORD_CONTEXT
    supported_language := "en" }

/-- One entry of a request's `custom_patterns` list (the JSON object fields
read by lines 119-137 and 216-247; optional fields are `Option`s). -/
structure CustomPatternConfig where
  name : String
  pattern : String
  entity_type : String
  confidence_score : Option Rat
  anonymization_method : Option String
  custom_replacement : Option String
  enabled : Option Bool
deriving Repr, DecidableEq

/-- One entry of a request's `entities` list (lines 204, 235-239). -/
structure EntityConfig where
  type : String
  anonymization_method : String
  custom_replacement : Option String
deriving Repr, DecidableEq

/-- The JSON value found at key `entities`: either a list (the valid case)
or some other JSON value, which line 201 rejects. -/
inductive EntitiesField where
  | list (es : List EntityConfig)
  | notList
deriving Repr, DecidableEq

/-- A parsed request configuration as read by lines 200-207. -/
structure ParsedConfig where
  entities : Option EntitiesField
  confidence_threshold : Option Rat
  language : Option String
  custom_patterns : Option (List CustomPatternConfig)
deriving Repr, DecidableEq

/-- One Presidio `RecognizerResult` returned by `analyzer.analyze`
(fields read at lines 263-277).  Python's `res.end` is named `stop`. -/
structure RecognizerResult where
  entity_type : String
  start : Nat
  stop : Nat
  score : Rat
deriving Repr, DecidableEq

/-- Presidio `OperatorConfig` as built by `create_operator_config`
(lines 176-188). -/
inductive OperatorConfig where
  | redact
  | replace (new_value : String)
  | mask (masking_char : Char) (chars_to_mask : Nat) (from_end : Bool)
  | hash
  | encrypt
deriving Repr, DecidableEq

/-- Builds the recognizer for one valid enabled descriptor
(lines 128-139): a single `Pattern` with the descriptor's name, regex and
score (default 0.8), entity type, empty context, language "en". -/
def mkRecognizer (c : CustomPatternConfig) : CustomPatternRecognizer :=
  { name := c.name
    supported_entity := c.entity_type
    patterns := [{ name := c.name, regex := c.pattern, score := c.confidence_score.getD 0.8 }]
    context := []
    supported_language := "en" }

/-- `create_custom_recognizers` (lines 113-147).  `regexError` models
Python's `re.compile`: `none` means the regex compiles, `some msg` means
compilation raises `re.error msg` — the descriptor is then skipped (the
`except` at lines 143-145), as is a descriptor whose `enabled` flag is
`False` (lines 120-121). -/
def create_custom_recognizers (regexError : String → Option String) :
    List CustomPatternConfig → List CustomPatternRecognizer
  | [] => []
  | c :: rest =>
    if c.enabled.getD true = false then create_custom_recognizers regexError rest
    else if (regexError c.pattern).isSome then create_custom_recognizers regexError rest
    else mkRecognizer c :: create_custom_recognizers regexError rest

/-- `setup_analyzer_with_custom_patterns` (lines 149-170): the analyzer's
recognizer registry is the built-in password recognizer plus the custom
recognizers. -/
def setup_analyzer_with_custom_patterns (regexError : String → Option String)
    (custom_patterns_config : List CustomPatternConfig) : List PatternRecognizer :=
  passwordPatternRecognizer ::
    (create_custom_recognizers regexError custom_patterns_config).map
      CustomPatternRecognizer.toPatternRecognizer

/-- Python's `custom_replacement or \x27[REDACTED]\x27` (line 181): a missing or
falsy (empty) replacement string falls back to the fixed marker. -/
def orRedactedMarker : Option String → String
  | none => "[REDACTED]"
  | some s => if s = "" then "[REDACTED]" else s

/-- `create_operator_config` (lines 176-188), including the silent
`redact` fallback on line 188 for any unrecognized method string. -/
def create_operator_config (method : String) (custom_replacement : Option String) :
    OperatorConfig :=
  if method = "redact" then .redact
  else if method = "replace" then .replace (orRedactedMarker custom_replacement)
  else if method = "mask" then .mask '*' 7 false
  else if method = "hash" then .hash
  else if method = "encrypt" then .encrypt
  else .redact

/-- Python dict assignment `m[k] = v` on an insertion-ordered
association list: overwrite in place if present, else append. -/
def dictInsert {α : Type} (m : List (String × α)) (k : String) (v : α) :
    List (String × α) :=
  match m with
  | [] => [(k, v)]
  | (k2, w) :: rest => if k2 = k then (k2, v) :: rest else (k2, w) :: dictInsert rest k v

/-- Python dict lookup `m.get(k)`. -/
def lookupDict {α : Type} : List (String × α) → String → Option α
  | [], _ => none
  | (k2, v) :: rest, k => if k2 = k then some v else lookupDict rest k

/-- Operator entries for the standard entity list (lines 234-239). -/
def standardOperators (entities : List EntityConfig) : List (String × OperatorConfig) :=
  entities.foldl
    (fun m e => dictInsert m e.type
      (create_operator_config e.anonymization_method e.custom_replacement)) []

/-- Operator entries added for enabled custom patterns (lines 241-248),
method defaulting to `redact`. -/
def withCustomOperators (custom_patterns_config : List CustomPatternConfig)
    (ops : List (String × OperatorConfig)) : List (String × OperatorConfig) :=
  custom_patterns_config.foldl
    (fun m c =>
      if c.enabled.getD true then
        dictInsert m c.entity_type
          (create_operator_config (c.anonymization_method.getD "redact") c.custom_replacement)
      else m) ops

/-- The full operators dict built by lines 230-252: standard entries, then
custom-pattern entries, then a `DEFAULT` entry unless one is already
present. -/
def buildOperators (entities : List EntityConfig)
    (custom_patterns_config : List CustomPatternConfig) : List (String × OperatorConfig) :=
  if (lookupDict (withCustomOperators custom_patterns_config (standardOperators entities))
      "DEFAULT").isSome then
    withCustomOperators custom_patterns_config (standardOperators entities)
  else
    dictInsert (withCustomOperators custom_patterns_config (standardOperators entities))
      "DEFAULT" (.replace "[REDACTED]")

/-- Modelled from the spec: the external Presidio anonymizer engine resolves
the operator for a detected category by looking it up in the operators
mapping and falling back to the `DEFAULT` entry (spec section 4.4); this
resolution step lives in the Presidio anonymizer package, outside `src/`. -/
def resolveOperator (operators : List (String × OperatorConfig)) (category : String) :
    OperatorConfig :=
  match lookupDict operators category with
  | some op => op
  | none => (lookupDict operators "DEFAULT").getD .redact

/-- One step of the `all_entity_types` accumulation at lines 216-220:
append an enabled custom pattern's entity type unless already present. -/
def addEntityType (acc : List String) (c : CustomPatternConfig) : List String :=
  if c.enabled.getD true then
    if c.entity_type ∈ acc then acc else acc ++ [c.entity_type]
  else acc

/-- `all_entity_types` (lines 214-220): the standard entity types followed
by the enabled custom patterns' entity types not already listed. -/
def all_entity_types (entity_types : List String)
    (custom_patterns_config : List CustomPatternConfig) : List String :=
  custom_patterns_config.foldl addEntityType entity_types

/-- One step of the entity counting at lines 261-264:
`entities_found[t] = entities_found.get(t, 0) + 1`. -/
def bumpCount : List (String × Nat) → String → List (String × Nat)
  | [], k => [(k, 1)]
  | (k2, v) :: rest, k =>
    if k2 = k then (k2, v + 1) :: rest else (k2, v) :: bumpCount rest k

/-- The `entities_found` dict built from a list of entity-type labels
(lines 261-264). -/
def countTypes (types : List String) : List (String × Nat) :=
  types.foldl bumpCount []

/-- Total of the per-category counts of an `entities_found` dict. -/
def sumCounts (m : List (String × Nat)) : Nat := (m.map (·.2)).sum

/-- Python string slice `s[a:b]` (line 277) for `0 ≤ a ≤ b`. -/
def pySlice (s : String) (a b : Nat) : String := String.mk ((s.data.take b).drop a)

/-- Replace the first `n` characters by `mask_char`, keep the rest. -/
def maskList (mask_char : Char) : Nat → List Char → List Char
  | _, [] => []
  | 0, l => l
  | n + 1, _ :: rest => mask_char :: maskList mask_char n rest

/-- Modelled from the spec: the external anonymizer engine's mask operator
(spec section 4.5): with `from_end = false` the first `chars_to_mask`
characters (or fewer, if the text is shorter) become `masking_char` and the
remainder is unchanged; with `from_end = true` the same happens from the
end.  The application itself lives in the Presidio anonymizer, outside
`src/`. -/
def apply_mask (masking_char : Char) (chars_to_mask : Nat) (from_end : Bool)
    (s : String) : String :=
  if from_end then String.mk ((maskList masking_char chars_to_mask s.data.reverse).reverse)
  else String.mk (maskList masking_char chars_to_mask s.data)

/-- A custom-pattern JSON object as read by `validate_custom_pattern`
(lines 433-467): every field may be absent. -/
structure PatternDescriptor where
  name : Option String
  pattern : Option String
  entity_type : Option String
  confidence_score : Option Rat
  anonymization_method : Option String
deriving Repr, DecidableEq

/-- The JSON object returned by `validate_custom_pattern`:
`{success: true, message}` or `{success: false, error}`. -/
inductive ValidationResult where
  | ok (message : String)
  | err (error : String)
deriving Repr, DecidableEq

/-- Python truthiness test `not pattern_config.get(field)` for a string
field: absent or empty counts as missing (line 441). -/
def falsyStr : Option String → Bool
  | none => true
  | some s => s = ""

/-- The five known operator kinds (line 457). -/
def VALID_METHODS : List String := ["redact", "replace", "mask", "hash", "encrypt"]

/-- `validate_custom_pattern` (lines 433-467), after JSON parsing:
fail-fast checks for required fields, regex compilability, confidence
range, and the anonymization method. -/
def validate_custom_pattern (regexError : String → Option String)
    (d : PatternDescriptor) : ValidationResult :=
  if falsyStr d.name then .err "Missing required field: name"
  else if falsyStr d.pattern then .err "Missing required field: pattern"
  else if falsyStr d.entity_type then .err "Missing required field: entity_type"
  else
    match regexError (d.pattern.getD "") with
    | some msg => .err ("Invalid regex pattern: " ++ msg)
    | none =>
      if d.confidence_score.getD 0.8 < 0.1 ∨ 1.0 < d.confidence_score.getD 0.8 then
        .err "Confidence score must be between 0.1 and 1.0"
      else if d.anonymization_method.getD "redact" ∈ VALID_METHODS then
        .ok "Pattern validation passed"
      else
        .err "Invalid anonymization method. Must be one of: redact, replace, mask, hash, encrypt"

/-- The external collaborators of `anonymize_text`, modelled as oracles:
Presidio availability (lines 6-14), Python `json.loads` (line 200, errors
are the raised message), `re.compile` (as in `create_custom_recognizers`),
`analyzer.analyze` (lines 223-228, given the recognizer registry built for
the request) and `ANONYMIZER.anonymize` (lines 255-259).  `Except.error`
models a raised exception, caught by the handler at lines 282-287. -/
structure Env where
  presidio_available : Bool
  presidio_error : String
  json_loads : String → Except String ParsedConfig
  regexError : String → Option String
  analyze : List PatternRecognizer → String → List String → String → Rat →
    Except String (List RecognizerResult)
  anonymize : String → List RecognizerResult → List (String × OperatorConfig) →
    Except String String

/-- One entry of the success response's `analyzer_results` list
(lines 271-279). -/
structure OutEntity where
  entity_type : String
  start : Nat
  stop : Nat
  score : Rat
  text : String
deriving Repr, DecidableEq

/-- The JSON object returned by `anonymize_text`: on failure only
`success`, `error` and `anonymized_text` are populated (lines 192-197 and
282-287); on success `error` is absent (lines 266-280). -/
structure Response where
  success : Bool
  error : Option String
  anonymized_text : String
  entities_found : List (String × Nat)
  total_entities : Nat
  analyzer_results : List OutEntity
deriving Repr, DecidableEq

/-- The failure response shape (lines 192-197 and 282-287): the original
input text is echoed back unmodified. -/
def failureResponse (e text : String) : Response :=
  { success := false
    error := some e
    anonymized_text := text
    entities_found := []
    total_entities := 0
    analyzer_results := [] }

/-- One success-response entry for an analyzer result (lines 271-279):
the `text` field slices the original input. -/
def mkOut (text : String) (r : RecognizerResult) : OutEntity :=
  { entity_type := r.entity_type
    start := r.start
    stop := r.stop
    score := r.score
    text := pySlice text r.start r.stop }

/-- The fields of the success response (lines 266-280). -/
structure SuccessPayload where
  anonymized_text : String
  entities_found : List (String × Nat)
  total_entities : Nat
  analyzer_results : List OutEntity
deriving Repr, DecidableEq

/-- Wraps a success payload as a `Response` (lines 266-280). -/
def successResponse (p : SuccessPayload) : Response :=
  { success := true
    error := none
    anonymized_text := p.anonymized_text
    entities_found := p.entities_found
    total_entities := p.total_entities
    analyzer_results := p.analyzer_results }

/-- The body of the `try` block of `anonymize_text` (lines 199-280):
parse the config (line 200), reject a missing or non-list `entities` field
(lines 201-202, the raised `ValueError` message), build the per-request
analyzer (lines 209-212; it is `None` only when Presidio is unavailable,
which the caller has already excluded), collect the entity types
(lines 214-220), run the analyzer (lines 223-228), build the operators
dict (lines 230-252), run the anonymizer (lines 255-259) and assemble the
report (lines 261-280).  Any `Except.error` models an exception reaching
the handler at lines 282-287. -/
def anonymize_run (env : Env) (text config_json : String) :
    Except String SuccessPayload :=
  match env.json_loads config_json with
  | .error e => .error e
  | .ok config =>
    match config.entities with
    | some (EntitiesField.list es) =>
      match env.analyze
          (setup_analyzer_with_custom_patterns env.regexError (config.custom_patterns.getD []))
          text
          (all_entity_types (es.map (·.type)) (config.custom_patterns.getD []))
          (config.language.getD "en")
          (config.confidence_threshold.getD 0.35) with
      | .error e => .error e
      | .ok analyzer_results =>
        match env.anonymize text analyzer_results
            (buildOperators es (config.custom_patterns.getD [])) with
        | .error e => .error e
        | .ok anonymized_text =>
          .ok { anonymized_text := anonymized_text
                entities_found := countTypes (analyzer_results.map (·.entity_type))
                total_entities := analyzer_results.length
                analyzer_results := analyzer_results.map (mkOut text) }
    | some EntitiesField.notList => .error "Invalid config: missing \x27entities\x27 list."
    | none => .error "Invalid config: missing \x27entities\x27 list."

/-- `anonymize_text` (lines 190-287).  Total by construction: every failure
path yields a structured failure response, mirroring the Python function
from which no exception escapes. -/
def anonymize_text (env : Env) (text config_json : String) : Response :=
  if env.presidio_available = false then
    failureResponse ("Presidio not available: " ++ env.presidio_error) text
  else
    match anonymize_run env text config_json with
    | .ok p => successResponse p
    | .error e => failureResponse e text

/-! Concrete environments and requests used by witnesses and
counterexamples.  Each `Env` instantiates the oracles consistently with
their real counterparts on the one request it is used for. -/

/-- Environment of a deployment where the Presidio import failed
(lines 6-14): `PRESIDIO_AVAILABLE = False` with the import error text. -/
def envNoPresidio : Env :=
  { presidio_available := false
    presidio_error := "No module named \x27presidio_analyzer\x27"
    json_loads := fun _ => .error "Expecting value: line 1 column 1 (char 0)"
    regexError := fun _ => none
    analyze := fun _ _ _ _ _ => .ok []
    anonymize := fun t _ _ => .ok t }

/-- Request text for the overlapping-detections scenario: a credit-card
number that Presidio also detects as a phone number. -/
def ccText : String := "4111111111111111"

/-- Request JSON for the overlapping-detections scenario. -/
def ccJson : String :=
  "\x7b\x22entities\x22: [\x7b\x22type\x22: \x22CREDIT_CARD\x22, \x22anonymization_method\x22: \x22redact\x22\x7d, \x7b\x22type\x22: \x22PHONE_NUMBER\x22, \x22anonymization_method\x22: \x22redact\x22\x7d]\x7d"

/-- Parse of `ccJson`. -/
def ccConfig : ParsedConfig :=
  { entities := some (EntitiesField.list
      [{ type := "CREDIT_CARD", anonymization_method := "redact", custom_replacement := none },
       { type := "PHONE_NUMBER", anonymization_method := "redact", custom_replacement := none }])
    confidence_threshold := none
    language := none
    custom_patterns := none }

/-- Environment for the overlapping-detections scenario: on `ccText` the
Presidio analyzer returns a CREDIT_CARD span (checksum-validated,
score 1.0) and a PHONE_NUMBER span (score 0.4) over the same range —
Presidio's analyze stage only removes same-type duplicates, so both
cross-type results survive; the anonymizer resolves the overlap in favour
of the higher score and redacts the whole match. -/
def envOverlap : Env :=
  { presidio_available := true
    presidio_error := ""
    json_loads := fun _ => .ok ccConfig
    regexError := fun _ => none
    analyze := fun _ _ _ _ _ => .ok
      [{ entity_type := "CREDIT_CARD", start := 0, stop := 16, score := 1.0 },
       { entity_type := "PHONE_NUMBER", start := 0, stop := 16, score := 0.4 }]
    anonymize := fun _ _ _ => .ok "" }

/-- A custom-pattern descriptor whose regex does not compile. -/
def brokenPattern : CustomPatternConfig :=
  { name := "broken"
    pattern := "("
    entity_type := "CUSTOM_X"
    confidence_score := none
    anonymization_method := none
    custom_replacement := none
    enabled := none }

/-- Request JSON carrying the broken custom pattern. -/
def badRegexJson : String :=
  "\x7b\x22entities\x22: [], \x22custom_patterns\x22: [\x7b\x22name\x22: \x22broken\x22, \x22pattern\x22: \x22(\x22, \x22entity_type\x22: \x22CUSTOM_X\x22\x7d]\x7d"

/-- Parse of `badRegexJson`. -/
def badRegexConfig : ParsedConfig :=
  { entities := some (EntitiesField.list [])
    confidence_threshold := none
    language := none
    custom_patterns := some [brokenPattern] }

/-- Environment for the invalid-custom-regex scenario: `re.compile "("`
raises, every other regex compiles, and the analyzer finds nothing in the
benign text. -/
def envBadRegex : Env :=
  { presidio_available := true
    presidio_error := ""
    json_loads := fun _ => .ok badRegexConfig
    regexError := fun p =>
      if p = "(" then some "missing ), unterminated subpattern at position 0" else none
    analyze := fun _ _ _ _ _ => .ok []
    anonymize := fun t _ _ => .ok t }

/-- Request JSON whose entity entry carries an unrecognized
`anonymization_method`. -/
def badMethodJson : String :=
  "\x7b\x22entities\x22: [\x7b\x22type\x22: \x22EMAIL_ADDRESS\x22, \x22anonymization_method\x22: \x22obliterate\x22\x7d]\x7d"

/-- Parse of `badMethodJson`. -/
def badMethodConfig : ParsedConfig :=
  { entities := some (EntitiesField.list
      [{ type := "EMAIL_ADDRESS", anonymization_method := "obliterate", custom_replacement := none }])
    confidence_threshold := none
    language := none
    custom_patterns := none }

/-- Environment for the unrecognized-method scenario: the text contains no
detectable entity, so the analyzer returns nothing and the anonymizer
leaves the text unchanged. -/
def envBadMethod : Env :=
  { presidio_available := true
    presidio_error := ""
    json_loads := fun _ => .ok badMethodConfig
    regexError := fun _ => none
    analyze := fun _ _ _ _ _ => .ok []
    anonymize := fun t _ _ => .ok t }

/-- Request text containing one email address at offsets 11 to 27. -/
def emailText : String := "contact me user@example.com now"

/-- Request JSON for the email-replacement scenario. -/
def emailJson : String :=
  "\x7b\x22entities\x22: [\x7b\x22type\x22: \x22EMAIL_ADDRESS\x22, \x22anonymization_method\x22: \x22replace\x22, \x22custom_replacement\x22: \x22<EMAIL>\x22\x7d]\x7d"

/-- Parse of `emailJson`. -/
def emailConfig : ParsedConfig :=
  { entities := some (EntitiesField.list
      [{ type := "EMAIL_ADDRESS", anonymization_method := "replace",
         custom_replacement := some "<EMAIL>" }])
    confidence_threshold := none
    language := none
    custom_patterns := none }

/-- Environment for the email-replacement scenario: Presidio's email
recognizer reports the address at `[11, 27)` with score 1.0 and the
anonymizer substitutes the configured replacement. -/
def envEmail : Env :=
  { presidio_available := true
    presidio_error := ""
    json_loads := fun _ => .ok emailConfig
    regexError := fun _ => none
    analyze := fun _ _ _ _ _ => .ok
      [{ entity_type := "EMAIL_ADDRESS", start := 11, stop := 27, score := 1.0 }]
    anonymize := fun _ _ _ => .ok "contact me <EMAIL> now" }

/-- An enabled custom-pattern descriptor for a ten-digit account label. -/
def customPhone : CustomPatternConfig :=
  { name := "phone_custom"
    pattern := "[0-9]\x7b10\x7d"
    entity_type := "PHONE_CUSTOM"
    confidence_score := none
    anonymization_method := none
    custom_replacement := none
    enabled := some true }

/-! Helper lemmas shared by several claim theorems. -/

theorem sumCounts_bumpCount (m : List (String × Nat)) (k : String) :
    sumCounts (bumpCount m k) = sumCounts m + 1 := by
  induction m with
  | nil => rfl
  | cons hd rest ih =>
    obtain ⟨k2, v⟩ := hd
    by_cases h : k2 = k
    · simp [bumpCount, h, sumCounts]
      omega
    · simp [bumpCount, h, sumCounts] at ih ⊢
      omega

theorem sumCounts_foldl_bumpCount (types : List String) :
    ∀ m : List (String × Nat),
      sumCounts (types.foldl bumpCount m) = sumCounts m + types.length := by
  induction types with
  | nil => intro m; simp
  | cons t rest ih =>
    intro m
    simp only [List.foldl_cons, List.length_cons]
    rw [ih, sumCounts_bumpCount]
    omega

theorem sumCounts_countTypes (types : List String) :
    sumCounts (countTypes types) = types.length := by
  unfold countTypes
  rw [sumCounts_foldl_bumpCount]
  simp [sumCounts]

theorem lookupDict_dictInsert {α : Type} (m : List (String × α)) (ka k : String) (v : α) :
    lookupDict (dictInsert m ka v) k = if ka = k then some v else lookupDict m k := by
  induction m with
  | nil => simp [dictInsert, lookupDict]
  | cons hd rest ih =>
    obtain ⟨k2, w⟩ := hd
    by_cases h2a : k2 = ka
    · subst h2a
      by_cases hk : k2 = k <;> simp [dictInsert, lookupDict, hk]
    · by_cases h2k : k2 = k
      · subst h2k
        have : ¬ ka = k2 := fun h => h2a h.symm
        simp [dictInsert, lookupDict, h2a, this]
      · simp [dictInsert, lookupDict, h2a, h2k, ih]

theorem lookup_standardOperators_foldl (k : String) :
    ∀ (es : List EntityConfig) (m : List (String × OperatorConfig)),
      k ∉ es.map (·.type) →
      lookupDict (es.foldl (fun m e => dictInsert m e.type
        (create_operator_config e.anonymization_method e.custom_replacement)) m) k
        = lookupDict m k := by
  intro es
  induction es with
  | nil => intro m _; rfl
  | cons e rest ih =>
    intro m hk
    simp only [List.map_cons, List.mem_cons] at hk
    push_neg at hk
    simp only [List.foldl_cons]
    rw [ih _ hk.2, lookupDict_dictInsert, if_neg (fun h => hk.1 h.symm)]

theorem lookup_standardOperators (es : List EntityConfig) (k : String)
    (hk : k ∉ es.map (·.type)) :
    lookupDict (standardOperators es) k = none := by
  unfold standardOperators
  rw [lookup_standardOperators_foldl k es [] hk]
  rfl

theorem lookup_withCustomOperators (k : String) :
    ∀ (cps : List CustomPatternConfig) (m : List (String × OperatorConfig)),
      k ∉ cps.map (·.entity_type) →
      lookupDict (withCustomOperators cps m) k = lookupDict m k := by
  intro cps
  induction cps with
  | nil => intro m _; rfl
  | cons c rest ih =>
    intro m hk
    simp only [List.map_cons, List.mem_cons] at hk
    push_neg at hk
    unfold withCustomOperators at ih ⊢
    simp only [List.foldl_cons]
    by_cases hen : c.enabled.getD true
    · rw [if_pos hen, ih _ hk.2, lookupDict_dictInsert, if_neg (fun h => hk.1 h.symm)]
    · rw [if_neg hen, ih _ hk.2]

theorem mem_addEntityType (acc : List String) (c : CustomPatternConfig) (t : String) :
    t ∈ addEntityType acc c ↔
      t ∈ acc ∨ (c.enabled.getD true = true ∧ t = c.entity_type) := by
  by_cases hen : c.enabled.getD true
  · by_cases hmem : c.entity_type ∈ acc
    · simp only [addEntityType, hen, if_true, hmem]
      constructor
      · exact Or.inl
      · rintro (h | ⟨_, rfl⟩)
        · exact h
        · exact hmem
    · simp [addEntityType, hen, hmem, List.mem_append]
  · simp [addEntityType, hen]

theorem nodup_addEntityType (acc : List String) (c : CustomPatternConfig)
    (h : acc.Nodup) : (addEntityType acc c).Nodup := by
  by_cases hen : c.enabled.getD true
  · by_cases hmem : c.entity_type ∈ acc
    · simpa [addEntityType, hen, hmem] using h
    · simp only [addEntityType, hen, if_true, hmem, if_false]
      simp only [List.nodup_append, List.nodup_singleton, true_and]
      refine ⟨h, ?_⟩
      intro a ha hb
      simp only [List.mem_singleton] at hb
      subst hb
      exact hmem ha
  · simpa [addEntityType, hen] using h

theorem mem_foldl_addEntityType (t : String) :
    ∀ (cps : List CustomPatternConfig) (acc : List String),
      t ∈ cps.foldl addEntityType acc ↔
        t ∈ acc ∨ t ∈ (cps.filter (fun c => c.enabled.getD true)).map (·.entity_type) := by
  intro cps
  induction cps with
  | nil => intro acc; simp
  | cons c rest ih =>
    intro acc
    simp only [List.foldl_cons]
    rw [ih]
    rw [mem_addEntityType]
    cases hen : c.enabled.getD true
    · simp [List.filter_cons, hen]
    · simp only [List.filter_cons, hen, if_true, List.map_cons, List.mem_cons,
        true_and]
      tauto

theorem nodup_foldl_addEntityType :
    ∀ (cps : List CustomPatternConfig) (acc : List String),
      acc.Nodup → (cps.foldl addEntityType acc).Nodup := by
  intro cps
  induction cps with
  | nil => intro acc h; simpa using h
  | cons c rest ih =>
    intro acc h
    simp only [List.foldl_cons]
    exact ih _ (nodup_addEntityType acc c h)

theorem maskList_length (mask_char : Char) (l : List Char) :
    ∀ n : Nat, (maskList mask_char n l).length = l.length := by
  induction l with
  | nil => intro n; cases n <;> rfl
  | cons c rest ih =>
    intro n
    cases n with
    | zero => rfl
    | succ n => simp [maskList, ih]

theorem maskList_take (mask_char : Char) (l : List Char) :
    ∀ n : Nat, (maskList mask_char n l).take n = (l.take n).map (fun _ => mask_char) := by
  induction l with
  | nil => intro n; cases n <;> rfl
  | cons c rest ih =>
    intro n
    cases n with
    | zero => rfl
    | succ n => simp [maskList, ih]

theorem maskList_drop (mask_char : Char) (l : List Char) :
    ∀ n : Nat, (maskList mask_char n l).drop n = l.drop n := by
  induction l with
  | nil => intro n; cases n <;> rfl
  | cons c rest ih =>
    intro n
    cases n with
    | zero => rfl
    | succ n => simp [maskList, ih]

theorem anonymize_text_success_run (env : Env) (text config_json : String)
    (h : (anonymize_text env text config_json).success = true) :
    ∃ p, anonymize_run env text config_json = .ok p ∧
      anonymize_text env text config_json = successResponse p := by
  by_cases hp : env.presidio_available = false
  · simp [anonymize_text, hp, failureResponse] at h
  · cases hr : anonymize_run env text config_json with
    | error e => simp [anonymize_text, hp, hr, failureResponse] at h
    | ok p => exact ⟨p, rfl, by simp [anonymize_text, hp, hr]⟩

theorem anonymize_run_ok_shape (env : Env) (text config_json : String)
    (p : SuccessPayload) (h : anonymize_run env text config_json = .ok p) :
    ∃ rs : List RecognizerResult,
      p.entities_found = countTypes (rs.map (·.entity_type)) ∧
      p.total_entities = rs.length ∧
      p.analyzer_results = rs.map (mkOut text) := by
  cases hj : env.json_loads config_json with
  | error e =>
    simp only [anonymize_run, hj] at h
    exact Except.noConfusion h
  | ok config =>
    simp only [anonymize_run, hj] at h
    cases hent : config.entities with
    | none =>
      simp only [hent] at h
      exact Except.noConfusion h
    | some f =>
      cases f with
      | notList =>
        simp only [hent] at h
        exact Except.noConfusion h
      | list es =>
        simp only [hent] at h
        cases ha : env.analyze
            (setup_analyzer_with_custom_patterns env.regexError (config.custom_patterns.getD []))
            text
            (all_entity_types (es.map (·.type)) (config.custom_patterns.getD []))
            (config.language.getD "en")
            (config.confidence_threshold.getD 0.35) with
        | error e =>
          simp only [ha] at h
          exact Except.noConfusion h
        | ok rs =>
          simp only [ha] at h
          cases han : env.anonymize text rs
              (buildOperators es (config.custom_patterns.getD [])) with
          | error e =>
            simp only [han] at h
            exact Except.noConfusion h
          | ok anon =>
            simp only [han, Except.ok.injEq] at h
            subst h
            exact ⟨rs, rfl, rfl, rfl⟩

/-! Claim theorems. -/

/-- C1: For every input text and every config_json on which processing
fails (Presidio unavailable, config_json not valid JSON, the `entities`
list missing or not a list, or any exception during detection or
anonymization — the latter two modelled as `anonymize_run` returning
`Except.error`), `anonymize_text` returns a structured result with
`success = false`, an error string, and `anonymized_text` equal to the
original input text unmodified; `anonymize_text` is a total function, so
no exception escapes. -/
theorem anonymize_text_failure_contract (env : Env) (text config_json : String) :
    ((anonymize_text env text config_json).success = false →
      (anonymize_text env text config_json).anonymized_text = text ∧
      ((anonymize_text env text config_json).error).isSome = true) ∧
    (env.presidio_available = false →
      anonymize_text env text config_json
        = failureResponse ("Presidio not available: " ++ env.presidio_error) text) ∧
    (∀ e, anonymize_run env text config_json = .error e →
      anonymize_text env text config_json
        = failureResponse e text ∨
      anonymize_text env text config_json
        = failureResponse ("Presidio not available: " ++ env.presidio_error) text) ∧
    (∀ e, env.json_loads config_json = .error e →
      (anonymize_text env text config_json).success = false) ∧
    (∀ config, env.json_loads config_json = .ok config →
      (∀ es, config.entities ≠ some (EntitiesField.list es)) →
      (anonymize_text env text config_json).success = false) := by
  refine ⟨?_, ?_, ?_, ?_, ?_⟩
  · intro h
    by_cases hp : env.presidio_available = false
    · simp [anonymize_text, hp, failureResponse]
    · cases hr : anonymize_run env text config_json with
      | error e => simp [anonymize_text, hp, hr, failureResponse]
      | ok p => simp [anonymize_text, hp, hr, successResponse] at h
  · intro hp
    simp [anonymize_text, hp]
  · intro e hr
    by_cases hp : env.presidio_available = false
    · exact Or.inr (by simp [anonymize_text, hp])
    · exact Or.inl (by simp [anonymize_text, hp, hr])
  · intro e he
    by_cases hp : env.presidio_available = false
    · simp [anonymize_text, hp, failureResponse]
    · have hr : anonymize_run env text config_json = .error e := by
        simp only [anonymize_run, he]
      simp [anonymize_text, hp, hr, failureResponse]
  · intro config hc hne
    by_cases hp : env.presidio_available = false
    · simp [anonymize_text, hp, failureResponse]
    · have hr : anonymize_run env text config_json
          = .error "Invalid config: missing \x27entities\x27 list." := by
        simp only [anonymize_run, hc]
        cases hent : config.entities with
        | none => rfl
        | some f =>
          cases f with
          | list es => exact absurd hent (hne es)
          | notList => rfl
      simp [anonymize_text, hp, hr, failureResponse]

/-- Witness for C1: in a deployment without Presidio, a request is answered
with the structured failure response echoing the original text. -/
theorem anonymize_text_failure_contract_witness :
    anonymize_text envNoPresidio "my password is hunter24567" "not json"
      = failureResponse
          ("Presidio not available: " ++ envNoPresidio.presidio_error)
          "my password is hunter24567" :=
  (anonymize_text_failure_contract envNoPresidio "my password is hunter24567"
    "not json").2.1 rfl

/-- C7: for every list of custom pattern descriptors,
`create_custom_recognizers` skips any descriptor whose enabled flag is
false or whose regex fails to compile, without failing the rest of the
batch: it returns recognizers for exactly the remaining valid enabled
descriptors, in order.  (The function is total, so nothing is raised.) -/
theorem create_custom_recognizers_filter (regexError : String → Option String)
    (custom_patterns_config : List CustomPatternConfig) :
    create_custom_recognizers regexError custom_patterns_config
      = (custom_patterns_config.filter
          (fun c => c.enabled.getD true && (regexError c.pattern).isNone)).map
          mkRecognizer := by
  induction custom_patterns_config with
  | nil => rfl
  | cons c rest ih =>
    cases hb : c.enabled.getD true with
    | false => simp [create_custom_recognizers, hb, ih, List.filter_cons]
    | true =>
      cases hre : regexError c.pattern with
      | some msg => simp [create_custom_recognizers, hb, hre, ih, List.filter_cons]
      | none => simp [create_custom_recognizers, hb, hre, ih, List.filter_cons]

/-- C8: for every category configured with the mask method, the operator
built is mask with mask character `*`, masking length 7, anchored to the
start (`from_end = false`); applying such a mask (as the spec describes
the external mask operator) keeps the length, turns the first 7 characters
(or fewer, if shorter) into `*`, and reveals the remainder unchanged. -/
theorem mask_operator_contract (custom_replacement : Option String) (s : String) :
    create_operator_config "mask" custom_replacement
      = OperatorConfig.mask '*' 7 false ∧
    (apply_mask '*' 7 false s).length = s.length ∧
    (apply_mask '*' 7 false s).data.take 7 = (s.data.take 7).map (fun _ => '*') ∧
    (apply_mask '*' 7 false s).data.drop 7 = s.data.drop 7 := by
  refine ⟨rfl, ?_, ?_, ?_⟩
  · exact maskList_length '*' s.data 7
  · exact maskList_take '*' s.data 7
  · exact maskList_drop '*' s.data 7

/-- C9: the built-in PASSWORD recognizer consists of exactly the six
sub-patterns below with exactly these scores: 0.8 for the two
`label [:=] token` forms (token at least 6 non-whitespace non-quote
characters, labels password/pwd/pass matched case-insensitively via
`(?i)`), 0.7 for `label is token`, 0.9 for the double- and single-quoted
forms after `label [:=]`, and 0.85 for the paired username/login-then-
password form.  The regexes are quoted verbatim from the source with
apostrophes, double quotes and braces written as hex escapes. -/
theorem password_recognizer_scores :
    passwordPatternRecognizer.supported_entity = "PASSWORD" ∧
    PASSWORD_PATTERNS.map (fun p => (p.name, p.score))
      = [("password_colon_pattern", 0.8),
         ("password_equals_pattern", 0.8),
         ("password_is_pattern", 0.7),
         ("password_quoted_double", 0.9),
         ("password_quoted_single", 0.9),
         ("login_credentials_pattern", 0.85)] ∧
    PASSWORD_PATTERNS.map (fun p => (p.regex, p.score))
      = [("(?i)(?:password|pwd|pass)\\s*:\\s*([^\\s\\\x27\\\x22]\x7b6,\x7d)", 0.8),
         ("(?i)(?:password|pwd|pass)\\s*=\\s*([^\\s\\\x27\\\x22]\x7b6,\x7d)", 0.8),
         ("(?i)(?:password|pwd|pass)\\s+is\\s+([^\\s\\\x27\\\x22]\x7b6,\x7d)", 0.7),
         ("(?i)(?:password|pwd|pass)\\s*[:=]\\s*\\\x22([^\\\x22]\x7b6,\x7d)\\\x22", 0.9),
         ("(?i)(?:password|pwd|pass)\\s*[:=]\\s*\x27([^\x27]\x7b6,\x7d)\x27", 0.9),
         ("(?i)(?:username|user|login)\\s*[:=]\\s*\\S+\\s+(?:password|pwd|pass)\\s*[:=]\\s*([^\\s\\\x27\\\x22]\x7b6,\x7d)", 0.85)] :=
  ⟨rfl, rfl, rfl⟩

/-- C5 counterexample: the claim asserts the category list passed to the
detector has no duplicates, but a request listing the same type twice in
`entities` is passed through with the duplicate intact — only custom
pattern types are deduplicated (lines 216-220); the standard list is
copied verbatim (line 215). -/
theorem duplicate_types_passed_through :
    all_entity_types ["EMAIL_ADDRESS", "EMAIL_ADDRESS"] []
      = ["EMAIL_ADDRESS", "EMAIL_ADDRESS"] ∧
    ¬ (all_entity_types ["EMAIL_ADDRESS", "EMAIL_ADDRESS"] []).Nodup := by
  refine ⟨rfl, ?_⟩
  decide

/-- C5 (amended): for every request, the category list passed to the
detector (`analyze`) equals, as a set, the union of the category types
listed in the request's `entities` list and the entity types of the
enabled (flag true or absent) custom patterns; it is duplicate-free
whenever the listed standard types themselves are (custom types are
deduplicated against the accumulated list, but duplicates inside the
standard list survive). -/
theorem all_entity_types_union (entity_types : List String)
    (custom_patterns_config : List CustomPatternConfig) :
    (∀ t, t ∈ all_entity_types entity_types custom_patterns_config ↔
      (t ∈ entity_types ∨
        t ∈ (custom_patterns_config.filter
          (fun c => c.enabled.getD true)).map (·.entity_type))) ∧
    (entity_types.Nodup →
      (all_entity_types entity_types custom_patterns_config).Nodup) := by
  constructor
  · intro t
    exact mem_foldl_addEntityType t custom_patterns_config entity_types
  · intro h
    exact nodup_foldl_addEntityType custom_patterns_config entity_types h

/-- Witness for C5 (amended): one standard type plus one enabled custom
pattern yield a duplicate-free two-element category list containing the
custom entity type. -/
theorem all_entity_types_union_witness :
    ("PHONE_CUSTOM" ∈ all_entity_types ["EMAIL_ADDRESS"] [customPhone]) ∧
    (all_entity_types ["EMAIL_ADDRESS"] [customPhone]).Nodup :=
  ⟨((all_entity_types_union ["EMAIL_ADDRESS"] [customPhone]).1 "PHONE_CUSTOM").2
      (Or.inr (by decide)),
   (all_entity_types_union ["EMAIL_ADDRESS"] [customPhone]).2 (by decide)⟩

/-- C6: any detected category with neither an explicit entry in the
`entities` list nor a matching custom-pattern descriptor resolves to the
`DEFAULT` operator, which is Replace with the fixed marker `[REDACTED]`
(line 252) whenever the configuration does not itself provide a `DEFAULT`
entry; `resolveOperator` is the spec-modelled lookup-with-DEFAULT-fallback
performed by the external anonymizer engine. -/
theorem default_operator_fallback (entities : List EntityConfig)
    (custom_patterns_config : List CustomPatternConfig) (category : String)
    (h1 : category ∉ entities.map (·.type))
    (h2 : category ∉ custom_patterns_config.map (·.entity_type))
    (h3 : "DEFAULT" ∉ entities.map (·.type))
    (h4 : "DEFAULT" ∉ custom_patterns_config.map (·.entity_type)) :
    resolveOperator (buildOperators entities custom_patterns_config) category
      = OperatorConfig.replace "[REDACTED]" := by
  have hD : lookupDict
      (withCustomOperators custom_patterns_config (standardOperators entities))
      "DEFAULT" = none := by
    rw [lookup_withCustomOperators "DEFAULT" custom_patterns_config _ h4,
      lookup_standardOperators entities "DEFAULT" h3]
  have hC : lookupDict
      (withCustomOperators custom_patterns_config (standardOperators entities))
      category = none := by
    rw [lookup_withCustomOperators category custom_patterns_config _ h2,
      lookup_standardOperators entities category h1]
  unfold buildOperators
  rw [hD]
  simp only [Option.isSome_none, Bool.false_eq_true, if_false]
  unfold resolveOperator
  rw [lookupDict_dictInsert]
  by_cases hcat : "DEFAULT" = category
  · rw [if_pos hcat]
  · rw [if_neg hcat, hC]
    simp [lookupDict_dictInsert]

/-- Witness for C6: a config with one `EMAIL_ADDRESS` entry and no custom
patterns resolves a detected `PHONE_NUMBER` to Replace `[REDACTED]`. -/
theorem default_operator_fallback_witness :
    resolveOperator
      (buildOperators
        [{ type := "EMAIL_ADDRESS", anonymization_method := "redact",
           custom_replacement := none }] [])
      "PHONE_NUMBER" = OperatorConfig.replace "[REDACTED]" :=
  default_operator_fallback
    [{ type := "EMAIL_ADDRESS", anonymization_method := "redact",
       custom_replacement := none }] [] "PHONE_NUMBER"
    (by decide) (by decide) (by decide) (by decide)

/-- C2 counterexample: two categories match the same range at the same
start (CREDIT_CARD score 1.0, PHONE_NUMBER score 0.4 over `[0, 16)`); the
success report's `entities_found` nevertheless contains the lower-score
PHONE_NUMBER match, because lines 261-264 count the raw `analyzer_results`,
not the finally-applied spans. -/
theorem overlap_lower_score_counted :
    (anonymize_text envOverlap ccText ccJson).success = true ∧
    (anonymize_text envOverlap ccText ccJson).entities_found
      = [("CREDIT_CARD", 1), ("PHONE_NUMBER", 1)] ∧
    ((anonymize_text envOverlap ccText ccJson).analyzer_results.map
      (fun e => (e.entity_type, e.start, e.stop)))
      = [("CREDIT_CARD", 0, 16), ("PHONE_NUMBER", 0, 16)] ∧
    ((anonymize_text envOverlap ccText ccJson).analyzer_results.map (·.score))
      = [1.0, 0.4] :=
  ⟨rfl, rfl, rfl, rfl⟩

/-- C2 (amended): for every successful anonymization request,
`entities_found` counts the raw analyzer detections — every entry of
`analyzer_results` contributes one to its category's count, including a
lower-score match overlapping a higher-score match of another category —
rather than the finally-applied non-overlapping spans. -/
theorem entities_found_counts_raw (env : Env) (text config_json : String)
    (h : (anonymize_text env text config_json).success = true) :
    (anonymize_text env text config_json).entities_found
      = countTypes ((anonymize_text env text config_json).analyzer_results.map
          (·.entity_type)) := by
  obtain ⟨p, hr, he⟩ := anonymize_text_success_run env text config_json h
  obtain ⟨rs, h1, _, h3⟩ := anonymize_run_ok_shape env text config_json p hr
  rw [he]
  show p.entities_found = countTypes (p.analyzer_results.map (·.entity_type))
  rw [h1, h3, List.map_map]
  rfl

/-- Witness for C2 (amended): the overlapping-detections request's report
counts exactly the raw detections. -/
theorem entities_found_counts_raw_witness :
    (anonymize_text envOverlap ccText ccJson).entities_found
      = countTypes ((anonymize_text envOverlap ccText ccJson).analyzer_results.map
          (·.entity_type)) :=
  entities_found_counts_raw envOverlap ccText ccJson rfl

/-- C3 counterexample: a request whose `custom_patterns` list contains an
enabled descriptor with the invalid regex `(` is not rejected:
`anonymize_text` succeeds (detection runs and the text is returned
unchanged), the broken descriptor simply being skipped by
`create_custom_recognizers`. -/
theorem invalid_pattern_request_succeeds :
    (anonymize_text envBadRegex "see you at the cafe" badRegexJson).success = true ∧
    (anonymize_text envBadRegex "see you at the cafe" badRegexJson).error = none ∧
    (anonymize_text envBadRegex "see you at the cafe" badRegexJson).anonymized_text
      = "see you at the cafe" ∧
    create_custom_recognizers envBadRegex.regexError [brokenPattern] = [] :=
  ⟨rfl, rfl, rfl, rfl⟩

/-- C3 (amended): an enabled custom-pattern descriptor with an invalid
regex does not fail the request: `create_custom_recognizers` skips exactly
that descriptor and the rest of the batch (and hence detection) proceeds;
a regex-error failure message is produced only by the separate
`validate_custom_pattern` entry point when it is invoked on such a
descriptor. -/
theorem invalid_regex_descriptor_skipped (regexError : String → Option String)
    (msg : String) (c : CustomPatternConfig)
    (hen : c.enabled.getD true = true) (hre : regexError c.pattern = some msg)
    (pre post : List CustomPatternConfig)
    (nm et : String) (hn : nm ≠ "") (hp : c.pattern ≠ "") (he : et ≠ "") :
    create_custom_recognizers regexError (pre ++ c :: post)
      = create_custom_recognizers regexError (pre ++ post) ∧
    validate_custom_pattern regexError
      { name := some nm, pattern := some c.pattern, entity_type := some et,
        confidence_score := none, anonymization_method := none }
      = .err ("Invalid regex pattern: " ++ msg) := by
  constructor
  · induction pre with
    | nil => simp [create_custom_recognizers, hen, hre]
    | cons a pre ih =>
      simp only [List.cons_append, create_custom_recognizers, List.append_eq]
      rw [ih]
  · simp [validate_custom_pattern, falsyStr, hn, hp, he, hre]

/-- Witness for C3 (amended): the broken descriptor of `envBadRegex` is
skipped and, when validated directly, yields the regex-error response. -/
theorem invalid_regex_descriptor_skipped_witness :
    create_custom_recognizers envBadRegex.regexError ([] ++ brokenPattern :: [])
      = create_custom_recognizers envBadRegex.regexError ([] ++ []) ∧
    validate_custom_pattern envBadRegex.regexError
      { name := some "broken", pattern := some brokenPattern.pattern,
        entity_type := some "CUSTOM_X", confidence_score := none,
        anonymization_method := none }
      = .err ("Invalid regex pattern: "
          ++ "missing ), unterminated subpattern at position 0") :=
  invalid_regex_descriptor_skipped envBadRegex.regexError
    "missing ), unterminated subpattern at position 0" brokenPattern
    rfl rfl [] [] "broken" "CUSTOM_X"
    (by decide) (by decide) (by decide)

/-- C4 counterexample: a request whose entity entry carries the
unrecognized method string `obliterate` is not rejected — `anonymize_text`
succeeds — and `create_operator_config` is reached with the unrecognized
string, silently resolving it to the redact operator (line 188). -/
theorem unknown_method_request_succeeds :
    (anonymize_text envBadMethod "nothing sensitive here" badMethodJson).success
      = true ∧
    lookupDict (buildOperators
      [{ type := "EMAIL_ADDRESS", anonymization_method := "obliterate",
         custom_replacement := none }] [])
      "EMAIL_ADDRESS" = some OperatorConfig.redact :=
  ⟨rfl, rfl⟩

/-- C4 (amended): an unrecognized `anonymization_method` string on an
entity entry is not rejected by `anonymize_text`; `create_operator_config`
maps every method string outside the five known kinds to the redact
operator.  An invalid-operator error is produced only by the separate
`validate_custom_pattern` entry point, and only for custom-pattern
descriptors. -/
theorem unknown_method_not_rejected (m : String) (hm : m ∉ VALID_METHODS)
    (custom_replacement : Option String)
    (regexError : String → Option String) (nm pat et : String)
    (hn : nm ≠ "") (hp : pat ≠ "") (he : et ≠ "") (hre : regexError pat = none) :
    create_operator_config m custom_replacement = OperatorConfig.redact ∧
    validate_custom_pattern regexError
      { name := some nm, pattern := some pat, entity_type := some et,
        confidence_score := none, anonymization_method := some m }
      = .err "Invalid anonymization method. Must be one of: redact, replace, mask, hash, encrypt" := by
  have hms : m ≠ "redact" ∧ m ≠ "replace" ∧ m ≠ "mask" ∧ m ≠ "hash" ∧ m ≠ "encrypt" := by
    simp only [VALID_METHODS, List.mem_cons, List.mem_singleton] at hm
    push_neg at hm
    simpa using hm
  have hconf : ¬((0.8 : Rat) < 0.1 ∨ (1.0 : Rat) < 0.8) := by norm_num
  constructor
  · simp [create_operator_config, hms.1, hms.2.1, hms.2.2.1, hms.2.2.2.1,
      hms.2.2.2.2]
  · simp [validate_custom_pattern, falsyStr, hn, hp, he, hre, hconf, hm]

/-- Witness for C4 (amended): the method string `obliterate` resolves to
redact and is rejected by the standalone validator. -/
theorem unknown_method_not_rejected_witness :
    create_operator_config "obliterate" none = OperatorConfig.redact ∧
    validate_custom_pattern (fun _ => none)
      { name := some "account_rule", pattern := some "[0-9]+",
        entity_type := some "ACCOUNT", confidence_score := none,
        anonymization_method := some "obliterate" }
      = .err "Invalid anonymization method. Must be one of: redact, replace, mask, hash, encrypt" :=
  unknown_method_not_rejected "obliterate" (by decide) none (fun _ => none)
    "account_rule" "[0-9]+" "ACCOUNT" (by decide) (by decide) (by decide) rfl

/-- C10: for every successful anonymization result, `total_entities`
equals the number of entries in `analyzer_results` and equals the sum over
all categories of the counts in `entities_found`, and each
`analyzer_results` entry's `text` field equals the slice `[start, stop)`
of the original input text — spans are reported in original-text
coordinates. -/
theorem success_report_invariants (env : Env) (text config_json : String)
    (h : (anonymize_text env text config_json).success = true) :
    (anonymize_text env text config_json).total_entities
      = (anonymize_text env text config_json).analyzer_results.length ∧
    sumCounts (anonymize_text env text config_json).entities_found
      = (anonymize_text env text config_json).total_entities ∧
    ∀ e ∈ (anonymize_text env text config_json).analyzer_results,
      e.text = pySlice text e.start e.stop := by
  obtain ⟨p, hr, he⟩ := anonymize_text_success_run env text config_json h
  obtain ⟨rs, h1, h2, h3⟩ := anonymize_run_ok_shape env text config_json p hr
  rw [he]
  refine ⟨?_, ?_, ?_⟩
  · show p.total_entities = p.analyzer_results.length
    rw [h2, h3, List.length_map]
  · show sumCounts p.entities_found = p.total_entities
    rw [h1, h2, sumCounts_countTypes, List.length_map]
  · show ∀ e ∈ p.analyzer_results, e.text = pySlice text e.start e.stop
    rw [h3]
    intro e he2
    rw [List.mem_map] at he2
    obtain ⟨r, _, rfl⟩ := he2
    rfl

/-- Witness for C10: the email-replacement request's report satisfies the
count and slice invariants. -/
theorem success_report_invariants_witness :
    (anonymize_text envEmail emailText emailJson).total_entities
      = (anonymize_text envEmail emailText emailJson).analyzer_results.length ∧
    sumCounts (anonymize_text envEmail emailText emailJson).entities_found
      = (anonymize_text envEmail emailText emailJson).total_entities ∧
    ∀ e ∈ (anonymize_text envEmail emailText emailJson).analyzer_results,
      e.text = pySlice emailText e.start e.stop :=
  success_report_invariants envEmail emailText emailJson rfl

end SecurePaste
